import Mathlib

/-!
Shallow embedding of the `shader-background` repository core:
`src/lib/core/ShaderCanvas.ts` (surface sizing, deferred resize, clock) and the
`GradientPlugin` (point animation engine: motion track, color track, uniforms).
JavaScript numbers are modelled as rationals; `Math.floor` is `Int.floor`;
out-of-range JS array reads (which yield `undefined` and make a subsequent
member access throw) are modelled with `Option`.
-/

namespace ShaderBackground

/-- Computes `Math.max(1, Math.floor(w * scale))` — the buffer dimension computation used
in both the `ShaderCanvas` constructor (lines 55-56) and `resize` (lines 178-179). -/
def computeRenderDim (w scale : ℚ) : ℤ :=
  max 1 ⌊w * scale⌋

/-- The sizing-relevant state of a `ShaderCanvas`: display size, CSS size,
canvas drawing-buffer size (`canvas.width` / `canvas.height`), the deferred
resize slot `#pendingResize`, and the fixed `#renderScale` / `#singleRender`. -/
structure SurfaceState where
  singleRender : Bool
  renderScale : ℚ
  displayWidth : ℚ
  displayHeight : ℚ
  canvasWidth : ℤ
  canvasHeight : ℤ
  cssWidth : ℚ
  cssHeight : ℚ
  pendingResize : Option (ℤ × ℤ)
  deriving DecidableEq

/-- JS falsiness of an optional numeric option (`undefined` and `0` are falsy). -/
def isFalsyNum (o : Option ℚ) : Bool :=
  match o with
  | Option.none => true
  | some v => decide (v = 0)

/-- Constructor options of `ShaderCanvas` (all optional, as in the source). -/
structure CanvasOptions where
  devicePixelMult : Option ℚ := Option.none
  width : Option ℚ := Option.none
  height : Option ℚ := Option.none
  renderScale : Option ℚ := Option.none
  singleRender : Option Bool := Option.none

/-- The `ShaderCanvas` constructor's sizing logic (lines 33-76):
`pr = clamp(pixelRatio ?? 1, 0.1, 4)`, `renderScale = (options.renderScale ?? 1) * pr`,
width/height fall back to 300 when falsy and to the bounding rect when either is
falsy and the rect dimension is positive; the buffer is set to
`max(1, floor(size * scale))` and CSS size to the display size. -/
def mkShaderCanvas (opts : CanvasOptions) (rectW rectH : ℚ) : SurfaceState :=
  let pr := max (1/10) (min 4 (opts.devicePixelMult.getD 1))
  let scale := (opts.renderScale.getD 1) * pr
  let single := opts.singleRender.getD false
  let w0 : ℚ := if isFalsyNum opts.width then 300 else opts.width.getD 300
  let h0 : ℚ := if isFalsyNum opts.height then 300 else opts.height.getD 300
  let w := if (isFalsyNum opts.width || isFalsyNum opts.height) && decide (rectW > 0)
           then rectW else w0
  let h := if (isFalsyNum opts.width || isFalsyNum opts.height) && decide (rectH > 0)
           then rectH else h0
  { singleRender := single
    renderScale := scale
    displayWidth := w
    displayHeight := h
    canvasWidth := computeRenderDim w scale
    canvasHeight := computeRenderDim h scale
    cssWidth := w
    cssHeight := h
    pendingResize := Option.none }

/-- Models the `resize` argument defaulting (lines 167-172): when either argument is
`undefined`, both dimensions are re-read from the bounding rect, clamped to a
minimum of 1. -/
def resizeDims (ow oh : Option ℚ) (rectW rectH : ℚ) : ℚ × ℚ :=
  match ow, oh with
  | some w, some h => (w, h)
  | _, _ => (max 1 rectW, max 1 rectH)

/-- Models `ShaderCanvas.resize` (lines 166-212): updates display and CSS size always;
in single-render mode it only records the recomputed buffer dimensions in
`#pendingResize`; otherwise it reallocates the canvas buffer immediately. -/
def SurfaceState.resize (s : SurfaceState) (ow oh : Option ℚ) (rectW rectH : ℚ) :
    SurfaceState :=
  let wh := resizeDims ow oh rectW rectH
  let rw := computeRenderDim wh.1 s.renderScale
  let rh := computeRenderDim wh.2 s.renderScale
  let s1 := { s with displayWidth := wh.1, displayHeight := wh.2,
                     cssWidth := wh.1, cssHeight := wh.2 }
  if s.singleRender then
    { s1 with pendingResize := some (rw, rh) }
  else
    { s1 with canvasWidth := rw, canvasHeight := rh }

/-- The deferred-resize application at the top of `ShaderCanvas.render`
(lines 137-148): applies a pending buffer reallocation if any, re-applies CSS
sizing from the display size, and clears the pending slot. -/
def SurfaceState.applyPendingResize (s : SurfaceState) : SurfaceState :=
  match s.pendingResize with
  | Option.none => s
  | some wh =>
      { s with canvasWidth := wh.1, canvasHeight := wh.2,
               cssWidth := s.displayWidth, cssHeight := s.displayHeight,
               pendingResize := Option.none }

/-- A sequence of `resize` calls (each with its optional explicit dimensions and
the bounding-rect reading at call time), applied in order. -/
def resizeMany (s : SurfaceState) (rs : List ((Option ℚ × Option ℚ) × ℚ × ℚ)) :
    SurfaceState :=
  rs.foldl (fun t q => t.resize q.1.1 q.1.2 q.2.1 q.2.2) s

/-- The clock state of `ShaderCanvas`: `#lastTime` and `#totalTime`. -/
structure ClockState where
  lastTime : ℚ
  totalTime : ℚ
  deriving DecidableEq

/-- The clock step inside `ShaderCanvas.render` (lines 150-153):
`dt = now - lastTime; lastTime = now; totalTime += dt * 0.001`.
Returns the delivered `dt` (milliseconds) and the new state. -/
def renderClockStep (c : ClockState) (now : ℚ) : ℚ × ClockState :=
  let dt := now - c.lastTime
  (dt, { lastTime := now, totalTime := c.totalTime + dt * (1/1000) })

/-- Repeated `render` ticks at the given `performance.now()` readings; returns
the list of delivered `dt` values and the final clock state. -/
def runClock (c : ClockState) : List ℚ → List ℚ × ClockState
  | [] => ([], c)
  | now :: rest =>
      let step := renderClockStep c now
      let r := runClock step.2 rest
      (step.1 :: r.1, r.2)

/-- A linear RGB triple, the pre-parsed form of a hex color string (parsing by
the external `ogl` `Color` is out of scope; `#ff0000` parses to `(1,0,0)`,
`#0000ff` to `(0,0,1)`). -/
structure RGB where
  r : ℚ
  g : ℚ
  b : ℚ
  deriving DecidableEq

inductive GradientEasing
  | linear
  | smoothstep
  | easeInOutQuad
  | easeInOutCubic
  deriving DecidableEq

inductive GradientMotionMode
  | none
  | path
  | random
  deriving DecidableEq

structure GradientMotionBounds where
  minX : ℚ
  maxX : ℚ
  minY : ℚ
  maxY : ℚ
  deriving DecidableEq

/-- Models `Partial<GradientMotionBounds>`: each field may be absent. -/
structure GradientBoundsOpt where
  minX : Option ℚ := Option.none
  maxX : Option ℚ := Option.none
  minY : Option ℚ := Option.none
  maxY : Option ℚ := Option.none
  deriving DecidableEq

/-- The declarative `GradientMotion` configuration (all fields optional). -/
structure GradientMotion where
  mode : Option GradientMotionMode := Option.none
  path : Option (List (ℚ × ℚ)) := Option.none
  duration : Option ℚ := Option.none
  easing : Option GradientEasing := Option.none
  bounds : Option GradientBoundsOpt := Option.none
  randomRadius : Option ℚ := Option.none
  deriving DecidableEq

/-- A `GradientPoint` configuration entry; `colors` holds the pre-parsed RGB
values of the configured hex strings. -/
structure GradientPoint where
  x : ℚ
  y : ℚ
  colors : List RGB
  speed : Option ℚ := Option.none
  motion : Option GradientMotion := Option.none
  deriving DecidableEq

/-- The object spread `{ ...defaultMotion, ...(point.motion ?? {}) }`: a field
present on the point's motion overrides the default. -/
def mergeMotion (d p : GradientMotion) : GradientMotion :=
  { mode := p.mode <|> d.mode
    path := p.path <|> d.path
    duration := p.duration <|> d.duration
    easing := p.easing <|> d.easing
    bounds := p.bounds <|> d.bounds
    randomRadius := p.randomRadius <|> d.randomRadius }

/-- Bounds resolution in `#resolveMotion` (lines 501-510): overlay the partial
bounds on the `[-1,1]²` defaults, then swap coordinates so that min ≤ max. -/
def resolveBounds (ob : Option GradientBoundsOpt) : GradientMotionBounds :=
  let b := ob.getD {}
  let b1 : GradientMotionBounds :=
    { minX := b.minX.getD (-1), maxX := b.maxX.getD 1,
      minY := b.minY.getD (-1), maxY := b.maxY.getD 1 }
  let b2 := if b1.minX > b1.maxX then { b1 with minX := b1.maxX, maxX := b1.minX } else b1
  if b2.minY > b2.maxY then { b2 with minY := b2.maxY, maxY := b2.minY } else b2

/-- The fully-resolved motion configuration returned by `#resolveMotion`. -/
structure ResolvedMotion where
  mode : GradientMotionMode
  path : List (ℚ × ℚ)
  duration : ℚ
  easing : GradientEasing
  bounds : GradientMotionBounds
  randomRadius : ℚ
  deriving DecidableEq

/-- Models `#resolveMotion` (lines 499-520): merge point motion over the plugin
default, fill fallback values, floor-clamp the duration to 0.001 and the radius
to 0, normalize bounds. -/
def resolveMotion (dm : GradientMotion) (p : GradientPoint) : ResolvedMotion :=
  let m := mergeMotion dm (p.motion.getD {})
  { mode := m.mode.getD GradientMotionMode.none
    path := m.path.getD []
    duration := max (1/1000) (m.duration.getD 3)
    easing := m.easing.getD GradientEasing.smoothstep
    bounds := resolveBounds m.bounds
    randomRadius := max 0 (m.randomRadius.getD 0) }

/-- Models `#clamp(n, min, max) = Math.max(min, Math.min(max, n))`. -/
def jsClamp (n lo hi : ℚ) : ℚ := max lo (min hi n)

/-- Models `#lerp(a, b, t) = a + (b - a) * t`. -/
def lerp (a b t : ℚ) : ℚ := a + (b - a) * t

/-- The easing curve formulas of `#ease` (lines 486-496), applied to the
already-clamped input (`Math.pow` with integer exponent is an exact power). -/
def easeBody (x : ℚ) (e : GradientEasing) : ℚ :=
  match e with
  | GradientEasing.linear => x
  | GradientEasing.easeInOutQuad =>
      if x < 1/2 then 2 * x * x else 1 - (-2 * x + 2) ^ 2 / 2
  | GradientEasing.easeInOutCubic =>
      if x < 1/2 then 4 * x * x * x else 1 - (-2 * x + 2) ^ 3 / 2
  | GradientEasing.smoothstep => x * x * (3 - 2 * x)

/-- Models `#ease` (lines 484-497): clamp the input to `[0,1]` then apply the curve. -/
def ease (t : ℚ) (e : GradientEasing) : ℚ :=
  easeBody (jsClamp t 0 1) e

/-- Oracle values for one `#randomTarget` call: `cosA`/`sinA` stand for
`Math.cos(a)`/`Math.sin(a)` at the sampled angle, `sqrtU` for
`Math.sqrt(Math.random())`, and `ux`/`uy` for the two `Math.random()` draws of
the radius-0 branch. -/
structure RandomSample where
  cosA : ℚ := 1
  sinA : ℚ := 0
  sqrtU : ℚ := 0
  ux : ℚ := 0
  uy : ℚ := 0
  deriving DecidableEq

/-- Models `#randomTarget` (lines 522-543): with a positive radius, polar sampling
around the base position followed by a clamp into bounds; otherwise independent
uniform draws across the bounds. -/
def randomTarget (baseX baseY : ℚ) (bounds : GradientMotionBounds) (radius : ℚ)
    (s : RandomSample) : ℚ × ℚ :=
  if radius > 0 then
    let r := s.sqrtU * radius
    (jsClamp (baseX + s.cosA * r) bounds.minX bounds.maxX,
     jsClamp (baseY + s.sinA * r) bounds.minY bounds.maxY)
  else
    (lerp bounds.minX bounds.maxX s.ux, lerp bounds.minY bounds.maxY s.uy)

/-- Per-point motion runtime state (class field `motionStates`). -/
structure MotionState where
  mode : GradientMotionMode
  easing : GradientEasing
  duration : ℚ
  bounds : GradientMotionBounds
  randomRadius : ℚ
  startX : ℚ
  startY : ℚ
  targetX : ℚ
  targetY : ℚ
  t : ℚ
  pathIndex : ℕ
  x : ℚ
  y : ℚ
  deriving DecidableEq

/-- Models `#createMotionState` (lines 545-575). -/
def createMotionState (dm : GradientMotion) (p : GradientPoint) (s : RandomSample) :
    MotionState :=
  let r := resolveMotion dm p
  let st : MotionState :=
    { mode := r.mode, easing := r.easing, duration := r.duration, bounds := r.bounds,
      randomRadius := r.randomRadius,
      startX := p.x, startY := p.y, targetX := p.x, targetY := p.y,
      t := 1, pathIndex := 0, x := p.x, y := p.y }
  match r.mode, r.path with
  | GradientMotionMode.path, wp :: _ =>
      { st with targetX := jsClamp wp.1 r.bounds.minX r.bounds.maxX,
                targetY := jsClamp wp.2 r.bounds.minY r.bounds.maxY, t := 0 }
  | GradientMotionMode.random, _ =>
      let tgt := randomTarget p.x p.y r.bounds r.randomRadius s
      { st with targetX := tgt.1, targetY := tgt.2, t := 0 }
  | _, _ => st

/-- The final `e = ease(t); x/y = lerp(start, target, e)` of `#stepMotion`
(lines 658-660). -/
def applyEase (st : MotionState) (e : GradientEasing) : MotionState :=
  { st with x := lerp st.startX st.targetX (ease st.t e),
            y := lerp st.startY st.targetY (ease st.t e) }

/-- The re-seed condition of `#stepMotion` (lines 581-589): any resolved motion
field differing from the cached state (bounds compared component-wise). -/
def motionConfigChanged (st : MotionState) (r : ResolvedMotion) : Bool :=
  decide (st.mode ≠ r.mode) || decide (st.easing ≠ r.easing) ||
  decide (st.duration ≠ r.duration) || decide (st.bounds ≠ r.bounds) ||
  decide (st.randomRadius ≠ r.randomRadius)

/-- The re-seed block of `#stepMotion` (lines 591-615): preserve the current
position as segment start, reset progress and path index, pick a target per
mode (holding with terminal progress for `none` / empty-path). -/
def reseedMotion (p : GradientPoint) (st : MotionState) (r : ResolvedMotion)
    (s1 : RandomSample) : MotionState :=
  let base : MotionState :=
    { st with mode := r.mode, easing := r.easing, duration := r.duration,
              bounds := r.bounds, randomRadius := r.randomRadius,
              startX := st.x, startY := st.y, t := 0, pathIndex := 0 }
  match r.mode, r.path with
  | GradientMotionMode.path, wp :: _ =>
      { base with targetX := jsClamp wp.1 r.bounds.minX r.bounds.maxX,
                  targetY := jsClamp wp.2 r.bounds.minY r.bounds.maxY }
  | GradientMotionMode.random, _ =>
      let tgt := randomTarget p.x p.y r.bounds r.randomRadius s1
      { base with targetX := tgt.1, targetY := tgt.2 }
  | _, _ => { base with targetX := p.x, targetY := p.y, t := 1 }

/-- Models `#stepMotion` (lines 577-661). `s1` feeds a random draw during re-seeding,
`s2` one at a segment boundary. The empty-path wrap branch returns before the
final ease/lerp, exactly as the early `return` at line 644. -/
def stepMotion (dm : GradientMotion) (p : GradientPoint) (st0 : MotionState) (dt : ℚ)
    (s1 s2 : RandomSample) : MotionState :=
  let r := resolveMotion dm p
  let st := if motionConfigChanged st0 r then reseedMotion p st0 r s1 else st0
  if r.mode = GradientMotionMode.none then
    let nx := jsClamp p.x r.bounds.minX r.bounds.maxX
    let ny := jsClamp p.y r.bounds.minY r.bounds.maxY
    { st with x := nx, y := ny, startX := nx, startY := ny,
              targetX := nx, targetY := ny, t := 1 }
  else
    let t1 := st.t + dt / (r.duration * 1000)
    if t1 ≥ 1 then
      let snapped : MotionState :=
        { st with x := st.targetX, y := st.targetY,
                  startX := st.targetX, startY := st.targetY, t := 0 }
      if r.mode = GradientMotionMode.path then
        match r.path with
        | [] => { snapped with targetX := snapped.x, targetY := snapped.y, t := 1 }
        | wp0 :: tl =>
            let idx := (snapped.pathIndex + 1) % (wp0 :: tl).length
            let wp := (wp0 :: tl).getD idx (0, 0)
            let st2 : MotionState :=
              { snapped with pathIndex := idx,
                             targetX := jsClamp wp.1 r.bounds.minX r.bounds.maxX,
                             targetY := jsClamp wp.2 r.bounds.minY r.bounds.maxY }
            applyEase st2 r.easing
      else
        let tgt := randomTarget p.x p.y r.bounds r.randomRadius s2
        let st2 : MotionState := { snapped with targetX := tgt.1, targetY := tgt.2 }
        applyEase st2 r.easing
    else
      let st2 : MotionState := { st with t := t1 }
      applyEase st2 r.easing

/-- Per-point color runtime state (class field `colorStates`). -/
structure ColorState where
  currentIdx : ℕ
  nextIdx : ℕ
  t : ℚ
  deriving DecidableEq

/-- Models `p.speed || 1.0`: both `undefined` and `0` (JS falsy) fall back to 1. -/
def resolveSpeed (o : Option ℚ) : ℚ :=
  match o with
  | Option.none => 1
  | some s => if s = 0 then 1 else s

/-- The color-track update of `onRender` (lines 681-687) for a live colors list
of length `liveLen`: advance `t` by `dt * 0.001 * speed`; on reaching 1, shift
the index pair modulo `liveLen` and reset `t` to 0 (remainder discarded). -/
def colorStep (liveLen : ℕ) (speed dt : ℚ) (cs : ColorState) : ColorState :=
  let t1 := cs.t + dt * (1/1000) * speed
  if t1 ≥ 1 then
    { currentIdx := cs.nextIdx, nextIdx := (cs.nextIdx + 1) % liveLen, t := 0 }
  else
    { cs with t := t1 }

/-- The per-channel linear interpolation of `onRender` (lines 694-696). -/
def lerpRGB (c1 c2 : RGB) (t : ℚ) : RGB :=
  { r := c1.r + (c2.r - c1.r) * t
    g := c1.g + (c2.g - c1.g) * t
    b := c1.b + (c2.b - c1.b) * t }

/-- One iteration of the `onRender` forEach for a single point (lines 667-702).
`parsed` is the construction-time `#parsedColors[i]`; `prev` the color already
in `uColors[i]` (kept when the live colors list has length ≤ 1).
Returns `Option.none` when the JS code throws: a read past the end of the
pre-parsed color table yields `undefined`, and the following channel access
raises a TypeError. -/
def renderPoint (dm : GradientMotion) (p : GradientPoint) (parsed : List RGB)
    (ms : MotionState) (cs : ColorState) (prev : RGB) (dt : ℚ) (s1 s2 : RandomSample) :
    Option (MotionState × ColorState × (ℚ × ℚ) × RGB) :=
  let ms1 := stepMotion dm p ms dt s1 s2
  let pos := (ms1.x, ms1.y)
  if p.colors.length ≤ 1 then
    some (ms1, cs, pos, prev)
  else
    let cs1 := colorStep p.colors.length (resolveSpeed p.speed) dt cs
    match parsed.get? cs1.currentIdx, parsed.get? cs1.nextIdx with
    | some c1, some c2 => some (ms1, cs1, pos, lerpRGB c1 c2 cs1.t)
    | _, _ => Option.none

/-- The whole `onRender` forEach (lines 667-702) over parallel per-point lists;
`Option.none` when any point throws (the model does not track the partial
in-place writes of an aborted loop — only whether a throw occurs, and the
post-state of non-throwing runs). -/
def renderLoop (dm : GradientMotion) (dt : ℚ) :
    List GradientPoint → List (List RGB) → List MotionState → List ColorState →
    List RGB → (ℕ → RandomSample × RandomSample) →
    Option (List MotionState × List ColorState × List (ℚ × ℚ) × List RGB)
  | [], [], [], [], [], _ => some ([], [], [], [])
  | p :: ps, parsed :: parseds, m :: ms, c :: cs, prev :: prevs, rnd =>
      match renderPoint dm p parsed m c prev dt (rnd 0).1 (rnd 0).2 with
      | Option.none => Option.none
      | some res =>
          match renderLoop dm dt ps parseds ms cs prevs (fun n => rnd (n + 1)) with
          | Option.none => Option.none
          | some rest =>
              some (res.1 :: rest.1, res.2.1 :: rest.2.1,
                    res.2.2.1 :: rest.2.2.1, res.2.2.2 :: rest.2.2.2)
  | _, _, _, _, _, _ => Option.none

/-- The aggregate state of a `GradientPlugin` instance. -/
structure PluginState where
  pointsConfig : List GradientPoint
  parsedColors : List (List RGB)
  colorStates : List ColorState
  motionStates : List MotionState
  defaultMotion : GradientMotion
  uPointCount : ℕ
  uPoints : List (ℚ × ℚ)
  uColors : List RGB
  deriving DecidableEq

/-- Models `GradientPlugin.MAX_POINTS` (line 322). -/
def MAX_POINTS : ℕ := 16

def black : RGB := ⟨0, 0, 0⟩

/-- The `GradientPlugin` constructor (lines 412-474): truncate past the cap,
pre-parse colors, initialize color and motion state, populate the uniform
arrays (unused slots get center position and black). -/
def gradientInit (points0 : List GradientPoint) (dm : Option GradientMotion)
    (rnd : ℕ → RandomSample) : PluginState :=
  let points := if points0.length > MAX_POINTS then points0.take MAX_POINTS else points0
  let parsed := points.map (fun p => p.colors)
  let colorStates := points.map (fun p =>
    ({ currentIdx := 0, nextIdx := if p.colors.length < 2 then 0 else 1, t := 0 } : ColorState))
  let motionStates := points.enum.map (fun ip =>
    createMotionState (dm.getD {}) ip.2 (rnd ip.1))
  let pointArray := points.map (fun p => (p.x, p.y)) ++
      List.replicate (MAX_POINTS - points.length) ((0 : ℚ), (0 : ℚ))
  let colorArray := points.map (fun p => p.colors.headD black) ++
      List.replicate (MAX_POINTS - points.length) black
  { pointsConfig := points
    parsedColors := parsed
    colorStates := colorStates
    motionStates := motionStates
    defaultMotion := dm.getD {}
    uPointCount := points.length
    uPoints := pointArray
    uColors := colorArray }

/-- Models `GradientPlugin.onRender` (lines 663-706) over the plugin state: run the
per-point loop and write the first `pointsConfig.length` uniform slots. -/
def onRenderAll (s : PluginState) (dt : ℚ) (rnd : ℕ → RandomSample × RandomSample) :
    Option PluginState :=
  let count := s.pointsConfig.length
  match renderLoop s.defaultMotion dt s.pointsConfig s.parsedColors s.motionStates
      s.colorStates (s.uColors.take count) rnd with
  | Option.none => Option.none
  | some res =>
      some { s with motionStates := res.1, colorStates := res.2.1,
                    uPoints := res.2.2.1 ++ s.uPoints.drop count,
                    uColors := res.2.2.2 ++ s.uColors.drop count }

/-- Iterated `onRender` ticks of a single point (with a fixed configuration
between ticks); returns the final motion state, color state, and emitted color. -/
def runPointTicks (dm : GradientMotion) (p : GradientPoint) (parsed : List RGB)
    (rnd : ℕ → RandomSample × RandomSample) :
    MotionState → ColorState → RGB → List ℚ → Option (MotionState × ColorState × RGB)
  | ms, cs, prev, [] => some (ms, cs, prev)
  | ms, cs, prev, dt :: rest =>
      match renderPoint dm p parsed ms cs prev dt (rnd 0).1 (rnd 0).2 with
      | Option.none => Option.none
      | some res =>
          runPointTicks dm p parsed (fun n => rnd (n + 1)) res.1 res.2.1 res.2.2.2 rest

/-- The color-index invariant of a point whose colors list has length `n`:
both indices in range, consecutive modulo `n` when `n ≥ 2`, both 0 when
`n = 1`. -/
def ColorIdxInv (n : ℕ) (cs : ColorState) : Prop :=
  cs.currentIdx < n ∧ cs.nextIdx < n ∧
  (2 ≤ n → cs.nextIdx = (cs.currentIdx + 1) % n) ∧
  (n = 1 → cs.currentIdx = 0 ∧ cs.nextIdx = 0)

/-- Pre-parsed `#ff0000` (red). -/
def red : RGB := ⟨1, 0, 0⟩

/-- Pre-parsed `#00ff00` (green). -/
def green : RGB := ⟨0, 1, 0⟩

/-- Pre-parsed `#0000ff` (blue). -/
def blue : RGB := ⟨0, 0, 1⟩

/-- Test fixture: the spec scenario point `{x:0, y:0, colors:
["#ff0000","#0000ff"], speed:1.0}`. -/
def ptScenario : GradientPoint := { x := 0, y := 0, colors := [red, blue], speed := some 1 }

/-- Test fixture: a trivial random-sample pair stream. -/
def rndPair : ℕ → RandomSample × RandomSample := fun _ => ({}, {})

/-- Test fixture: a point constructed with the single color `#ff0000`. -/
def ptSingleRed : GradientPoint := { x := 0, y := 0, colors := [red] }

/-- Test fixture: the plugin constructed with just `ptSingleRed`. -/
def sInit : PluginState := gradientInit [ptSingleRed] Option.none (fun _ => {})

/-- Test fixture: `sInit` after the caller mutates the point's colors array
from one to three entries between ticks (the pre-parsed table keeps length 1). -/
def sMutated : PluginState :=
  { sInit with pointsConfig := [{ ptSingleRed with colors := [red, green, blue] }] }

/-! ## Helper lemmas -/

lemma jsClamp_left (n lo hi : ℚ) : lo ≤ jsClamp n lo hi :=
  le_max_left _ _

lemma jsClamp_right (n lo hi : ℚ) (h : lo ≤ hi) : jsClamp n lo hi ≤ hi :=
  max_le h (min_le_left _ _)

lemma jsClamp_mono (a b lo hi : ℚ) (h : a ≤ b) : jsClamp a lo hi ≤ jsClamp b lo hi :=
  max_le_max le_rfl (min_le_min le_rfl h)

lemma computeRenderDim_ge_one (w scale : ℚ) : 1 ≤ computeRenderDim w scale :=
  le_max_left _ _

/-! ## C2 — clock accumulation -/

lemma runClock_total (c : ClockState) (nows : List ℚ) :
    (runClock c nows).2.totalTime = c.totalTime + (runClock c nows).1.sum * (1/1000) := by
  induction nows generalizing c with
  | nil => simp [runClock]
  | cons now rest ih =>
      simp only [runClock, renderClockStep, List.sum_cons]
      rw [ih]
      ring_nf

lemma runClock_dts (c : ClockState) (nows : List ℚ)
    (h : List.Chain' (fun a b => a ≤ b) (c.lastTime :: nows)) :
    ∀ d ∈ (runClock c nows).1, 0 ≤ d := by
  induction nows generalizing c with
  | nil => simp [runClock]
  | cons now rest ih =>
      rw [List.chain'_cons] at h
      simp only [runClock, renderClockStep, List.mem_cons]
      rintro d (rfl | hd)
      · linarith [h.1]
      · exact ih ⟨now, c.totalTime + (now - c.lastTime) * (1/1000)⟩ h.2 d hd

/-- C2 (amended): each `render` tick computes `dt = now - lastTime` with no
clamping, sets `lastTime := now`, and accumulates `dt * 0.001` into
`totalTime`; hence `totalTime` always equals the starting total plus the sum of
the delivered `dt` values in seconds, and whenever the `performance.now()`
readings are non-decreasing every delivered `dt` is non-negative and
`totalTime` is non-decreasing. -/
theorem c2_clock_accumulates_running_sum (c : ClockState) (nows : List ℚ)
    (h : List.Chain' (fun a b => a ≤ b) (c.lastTime :: nows)) :
    (runClock c nows).2.totalTime = c.totalTime + (runClock c nows).1.sum * (1/1000) ∧
    (∀ d ∈ (runClock c nows).1, 0 ≤ d) ∧
    c.totalTime ≤ (runClock c nows).2.totalTime := by
  refine ⟨runClock_total c nows, runClock_dts c nows h, ?_⟩
  rw [runClock_total c nows]
  have hsum : 0 ≤ (runClock c nows).1.sum :=
    List.sum_nonneg (fun d hd => runClock_dts c nows h d hd)
  nlinarith

/-- C2 witness: two monotone ticks at 100ms and 300ms starting from instant 0
accumulate exactly 0.3 seconds. -/
theorem c2_clock_accumulates_running_sum_witness :
    (runClock ⟨0, 0⟩ [100, 300]).2.totalTime =
        (0 : ℚ) + (runClock ⟨0, 0⟩ [100, 300]).1.sum * (1/1000) ∧
    (∀ d ∈ (runClock ⟨0, 0⟩ [100, 300]).1, 0 ≤ d) ∧
    (0 : ℚ) ≤ (runClock ⟨0, 0⟩ [100, 300]).2.totalTime :=
  c2_clock_accumulates_running_sum ⟨0, 0⟩ [100, 300]
    (by simp [List.chain'_cons]; norm_num)

/-- C2 counterexample: the claim says `dt` is clamped to be non-negative and
`totalElapsedSeconds` is non-decreasing for every tick sequence. At
`lastTime = 10` a tick with `now = 5` delivers `dt = -5 < 0` (no clamping in
the code), and `totalTime` drops from 0 to -0.005. -/
theorem c2_counterexample_dt_not_clamped :
    (renderClockStep ⟨10, 0⟩ 5).1 < 0 ∧
    (renderClockStep ⟨10, 0⟩ 5).2.totalTime < 0 := by
  norm_num [renderClockStep]

/-! ## C8 — buffer dimensions are ≥ 1 -/

/-- C8: after construction and after every `resize`, the computed buffer
dimensions `max(1, floor(size * scale))` are at least 1 in each axis, for any
requested display size (zero and negative included) and any scale; in
single-render mode the recomputed (pending) dimensions are those same clamped
values. No size request is a fatal error (all sizing operations are total). -/
theorem c8_buffer_dims_at_least_one (opts : CanvasOptions) (rectW rectH w scale : ℚ)
    (s t : SurfaceState) (ow oh : Option ℚ) (rw rh : ℚ)
    (hs : s.singleRender = false) (ht : t.singleRender = true) :
    1 ≤ (mkShaderCanvas opts rectW rectH).canvasWidth ∧
    1 ≤ (mkShaderCanvas opts rectW rectH).canvasHeight ∧
    1 ≤ computeRenderDim w scale ∧
    1 ≤ (s.resize ow oh rw rh).canvasWidth ∧
    1 ≤ (s.resize ow oh rw rh).canvasHeight ∧
    (t.resize ow oh rw rh).pendingResize =
      some (computeRenderDim (resizeDims ow oh rw rh).1 t.renderScale,
            computeRenderDim (resizeDims ow oh rw rh).2 t.renderScale) := by
  refine ⟨?_, ?_, computeRenderDim_ge_one w scale, ?_, ?_, ?_⟩
  · exact computeRenderDim_ge_one _ _
  · exact computeRenderDim_ge_one _ _
  · simp only [SurfaceState.resize, hs]
    simp [computeRenderDim_ge_one]
  · simp only [SurfaceState.resize, hs]
    simp [computeRenderDim_ge_one]
  · simp only [SurfaceState.resize, ht]
    simp

/-- C8 witness: a non-single-render canvas resized to a negative requested size
and a single-render canvas both keep buffer dimensions ≥ 1. -/
theorem c8_buffer_dims_at_least_one_witness :
    1 ≤ (mkShaderCanvas {} 0 0).canvasWidth ∧
    1 ≤ (mkShaderCanvas {} 0 0).canvasHeight ∧
    1 ≤ computeRenderDim (-5) (1/2) ∧
    1 ≤ ((mkShaderCanvas {} 0 0).resize (some (-5)) (some 0) 0 0).canvasWidth ∧
    1 ≤ ((mkShaderCanvas {} 0 0).resize (some (-5)) (some 0) 0 0).canvasHeight ∧
    (({ mkShaderCanvas {} 0 0 with singleRender := true }).resize (some (-5)) (some 0) 0 0).pendingResize =
      some (computeRenderDim (resizeDims (some (-5)) (some 0) 0 0).1
              ({ mkShaderCanvas {} 0 0 with singleRender := true } : SurfaceState).renderScale,
            computeRenderDim (resizeDims (some (-5)) (some 0) 0 0).2
              ({ mkShaderCanvas {} 0 0 with singleRender := true } : SurfaceState).renderScale) :=
  c8_buffer_dims_at_least_one {} 0 0 (-5) (1/2) (mkShaderCanvas {} 0 0)
    { mkShaderCanvas {} 0 0 with singleRender := true } (some (-5)) (some 0) 0 0
    (by norm_num [mkShaderCanvas, isFalsyNum]) rfl

/-! ## C1 — single-shot mode defers buffer resizes to the next render -/

lemma resize_single_preserves (s : SurfaceState) (h : s.singleRender = true)
    (ow oh : Option ℚ) (rw rh : ℚ) :
    (s.resize ow oh rw rh).canvasWidth = s.canvasWidth ∧
    (s.resize ow oh rw rh).canvasHeight = s.canvasHeight ∧
    (s.resize ow oh rw rh).singleRender = true ∧
    (s.resize ow oh rw rh).renderScale = s.renderScale := by
  simp [SurfaceState.resize, h]

lemma resizeMany_single_preserves (rs : List ((Option ℚ × Option ℚ) × ℚ × ℚ))
    (s : SurfaceState) (h : s.singleRender = true) :
    (resizeMany s rs).canvasWidth = s.canvasWidth ∧
    (resizeMany s rs).canvasHeight = s.canvasHeight ∧
    (resizeMany s rs).singleRender = true ∧
    (resizeMany s rs).renderScale = s.renderScale := by
  induction rs generalizing s with
  | nil => exact ⟨rfl, rfl, h, rfl⟩
  | cons q rest ih =>
      have hq := resize_single_preserves s h q.1.1 q.1.2 q.2.1 q.2.2
      have := ih (s.resize q.1.1 q.1.2 q.2.1 q.2.2) hq.2.2.1
      simp only [resizeMany, List.foldl_cons] at *
      exact ⟨this.1.trans hq.1, this.2.1.trans hq.2.1, this.2.2.1,
             this.2.2.2.trans hq.2.2.2⟩

/-- C1: in single-shot mode, any sequence of `resize` calls without an
intervening `render` never touches `canvas.width`/`canvas.height` (so the
rendered buffer pixels are preserved); it only updates the display/CSS size and
records the recomputed buffer dimensions of the most recent call in
`pendingResize`. The apply step at the start of the next `render` performs
exactly one buffer reallocation with those stored dimensions and clears
`pendingResize`; applying again with nothing pending changes nothing. -/
theorem c1_single_shot_resize_deferred (s : SurfaceState) (h : s.singleRender = true)
    (rs : List ((Option ℚ × Option ℚ) × ℚ × ℚ)) (ow oh : Option ℚ) (rectW rectH : ℚ) :
    (resizeMany s (rs ++ [((ow, oh), rectW, rectH)])).canvasWidth = s.canvasWidth ∧
    (resizeMany s (rs ++ [((ow, oh), rectW, rectH)])).canvasHeight = s.canvasHeight ∧
    (resizeMany s (rs ++ [((ow, oh), rectW, rectH)])).pendingResize =
      some (computeRenderDim (resizeDims ow oh rectW rectH).1 s.renderScale,
            computeRenderDim (resizeDims ow oh rectW rectH).2 s.renderScale) ∧
    (resizeMany s (rs ++ [((ow, oh), rectW, rectH)])).displayWidth =
      (resizeDims ow oh rectW rectH).1 ∧
    (resizeMany s (rs ++ [((ow, oh), rectW, rectH)])).displayHeight =
      (resizeDims ow oh rectW rectH).2 ∧
    (resizeMany s (rs ++ [((ow, oh), rectW, rectH)])).cssWidth =
      (resizeDims ow oh rectW rectH).1 ∧
    (resizeMany s (rs ++ [((ow, oh), rectW, rectH)])).cssHeight =
      (resizeDims ow oh rectW rectH).2 ∧
    (resizeMany s (rs ++ [((ow, oh), rectW, rectH)])).applyPendingResize.canvasWidth =
      computeRenderDim (resizeDims ow oh rectW rectH).1 s.renderScale ∧
    (resizeMany s (rs ++ [((ow, oh), rectW, rectH)])).applyPendingResize.canvasHeight =
      computeRenderDim (resizeDims ow oh rectW rectH).2 s.renderScale ∧
    (resizeMany s (rs ++ [((ow, oh), rectW, rectH)])).applyPendingResize.pendingResize =
      Option.none ∧
    (resizeMany s (rs ++ [((ow, oh), rectW, rectH)])).applyPendingResize.applyPendingResize =
      (resizeMany s (rs ++ [((ow, oh), rectW, rectH)])).applyPendingResize := by
  have hM := resizeMany_single_preserves rs s h
  have hT : resizeMany s (rs ++ [((ow, oh), rectW, rectH)]) =
      (resizeMany s rs).resize ow oh rectW rectH := by
    simp [resizeMany, List.foldl_append]
  rw [hT]
  simp [SurfaceState.resize, SurfaceState.applyPendingResize, hM.2.2.1, hM.2.2.2,
        hM.1, hM.2.1]

/-- C1 witness: a single-shot canvas resized twice keeps its buffer until the
next render, which applies the latest pending dimensions. -/
theorem c1_single_shot_resize_deferred_witness :
    (resizeMany { mkShaderCanvas { singleRender := some true } 0 0 with singleRender := true }
        ([((some 50, some 40), 0, 0)] ++ [((some 120, some 80), 0, 0)])).canvasWidth =
      ({ mkShaderCanvas { singleRender := some true } 0 0 with singleRender := true } :
        SurfaceState).canvasWidth ∧
    (resizeMany { mkShaderCanvas { singleRender := some true } 0 0 with singleRender := true }
        ([((some 50, some 40), 0, 0)] ++ [((some 120, some 80), 0, 0)])).canvasHeight =
      ({ mkShaderCanvas { singleRender := some true } 0 0 with singleRender := true } :
        SurfaceState).canvasHeight ∧
    (resizeMany { mkShaderCanvas { singleRender := some true } 0 0 with singleRender := true }
        ([((some 50, some 40), 0, 0)] ++ [((some 120, some 80), 0, 0)])).pendingResize =
      some (computeRenderDim (resizeDims (some 120) (some 80) 0 0).1
              ({ mkShaderCanvas { singleRender := some true } 0 0 with singleRender := true } :
                SurfaceState).renderScale,
            computeRenderDim (resizeDims (some 120) (some 80) 0 0).2
              ({ mkShaderCanvas { singleRender := some true } 0 0 with singleRender := true } :
                SurfaceState).renderScale) ∧
    (resizeMany { mkShaderCanvas { singleRender := some true } 0 0 with singleRender := true }
        ([((some 50, some 40), 0, 0)] ++ [((some 120, some 80), 0, 0)])).displayWidth =
      (resizeDims (some 120) (some 80) 0 0).1 ∧
    (resizeMany { mkShaderCanvas { singleRender := some true } 0 0 with singleRender := true }
        ([((some 50, some 40), 0, 0)] ++ [((some 120, some 80), 0, 0)])).displayHeight =
      (resizeDims (some 120) (some 80) 0 0).2 ∧
    (resizeMany { mkShaderCanvas { singleRender := some true } 0 0 with singleRender := true }
        ([((some 50, some 40), 0, 0)] ++ [((some 120, some 80), 0, 0)])).cssWidth =
      (resizeDims (some 120) (some 80) 0 0).1 ∧
    (resizeMany { mkShaderCanvas { singleRender := some true } 0 0 with singleRender := true }
        ([((some 50, some 40), 0, 0)] ++ [((some 120, some 80), 0, 0)])).cssHeight =
      (resizeDims (some 120) (some 80) 0 0).2 ∧
    (resizeMany { mkShaderCanvas { singleRender := some true } 0 0 with singleRender := true }
        ([((some 50, some 40), 0, 0)] ++ [((some 120, some 80), 0, 0)])).applyPendingResize.canvasWidth =
      computeRenderDim (resizeDims (some 120) (some 80) 0 0).1
        ({ mkShaderCanvas { singleRender := some true } 0 0 with singleRender := true } :
          SurfaceState).renderScale ∧
    (resizeMany { mkShaderCanvas { singleRender := some true } 0 0 with singleRender := true }
        ([((some 50, some 40), 0, 0)] ++ [((some 120, some 80), 0, 0)])).applyPendingResize.canvasHeight =
      computeRenderDim (resizeDims (some 120) (some 80) 0 0).2
        ({ mkShaderCanvas { singleRender := some true } 0 0 with singleRender := true } :
          SurfaceState).renderScale ∧
    (resizeMany { mkShaderCanvas { singleRender := some true } 0 0 with singleRender := true }
        ([((some 50, some 40), 0, 0)] ++ [((some 120, some 80), 0, 0)])).applyPendingResize.pendingResize =
      Option.none ∧
    (resizeMany { mkShaderCanvas { singleRender := some true } 0 0 with singleRender := true }
        ([((some 50, some 40), 0, 0)] ++ [((some 120, some 80), 0, 0)])).applyPendingResize.applyPendingResize =
      (resizeMany { mkShaderCanvas { singleRender := some true } 0 0 with singleRender := true }
        ([((some 50, some 40), 0, 0)] ++ [((some 120, some 80), 0, 0)])).applyPendingResize :=
  c1_single_shot_resize_deferred
    { mkShaderCanvas { singleRender := some true } 0 0 with singleRender := true } rfl
    [((some 50, some 40), 0, 0)] (some 120) (some 80) 0 0

/-! ## C7 — random targets stay within bounds -/

/-- C7: every target produced by `#randomTarget` lies within the normalized
bounds: for any base position, bounds with min ≤ max on each axis, radius ≥ 0,
and any values of the underlying random draws (the radius-0 branch draws
`ux`,`uy` uniform in `[0,1)`; the positive-radius branch polar-samples around
the base position using the `cos`/`sin`/`sqrt` oracle values and then clamps
into bounds), the result satisfies `minX ≤ x ≤ maxX` and `minY ≤ y ≤ maxY`. -/
theorem c7_random_target_within_bounds (baseX baseY : ℚ) (bounds : GradientMotionBounds)
    (radius : ℚ) (s : RandomSample)
    (hx : bounds.minX ≤ bounds.maxX) (hy : bounds.minY ≤ bounds.maxY)
    (hr : 0 ≤ radius)
    (hux0 : 0 ≤ s.ux) (hux1 : s.ux < 1) (huy0 : 0 ≤ s.uy) (huy1 : s.uy < 1) :
    bounds.minX ≤ (randomTarget baseX baseY bounds radius s).1 ∧
    (randomTarget baseX baseY bounds radius s).1 ≤ bounds.maxX ∧
    bounds.minY ≤ (randomTarget baseX baseY bounds radius s).2 ∧
    (randomTarget baseX baseY bounds radius s).2 ≤ bounds.maxY := by
  unfold randomTarget
  split
  · exact ⟨jsClamp_left _ _ _, jsClamp_right _ _ _ hx,
           jsClamp_left _ _ _, jsClamp_right _ _ _ hy⟩
  · refine ⟨?_, ?_, ?_, ?_⟩ <;> simp only [lerp] <;> nlinarith

/-- C7 witness: with bounds `[-1,1]²`, radius 0 and draws `ux = uy = 3/4`,
the target stays inside the bounds. -/
theorem c7_random_target_within_bounds_witness :
    (-1 : ℚ) ≤ (randomTarget 0 0 ⟨-1, 1, -1, 1⟩ 0 { ux := 3/4, uy := 3/4 }).1 ∧
    (randomTarget 0 0 ⟨-1, 1, -1, 1⟩ 0 { ux := 3/4, uy := 3/4 }).1 ≤ 1 ∧
    (-1 : ℚ) ≤ (randomTarget 0 0 ⟨-1, 1, -1, 1⟩ 0 { ux := 3/4, uy := 3/4 }).2 ∧
    (randomTarget 0 0 ⟨-1, 1, -1, 1⟩ 0 { ux := 3/4, uy := 3/4 }).2 ≤ 1 :=
  c7_random_target_within_bounds 0 0 ⟨-1, 1, -1, 1⟩ 0 { ux := 3/4, uy := 3/4 }
    (by norm_num) (by norm_num) le_rfl (by norm_num) (by norm_num) (by norm_num) (by norm_num)

/-! ## C6 — easing functions fix endpoints and are monotone -/

lemma easeBody_zero (e : GradientEasing) : easeBody 0 e = 0 := by
  cases e <;> norm_num [easeBody]

lemma easeBody_one (e : GradientEasing) : easeBody 1 e = 1 := by
  cases e <;> norm_num [easeBody]

lemma easeBody_mono (e : GradientEasing) (x y : ℚ)
    (h0 : 0 ≤ x) (hxy : x ≤ y) (h1 : y ≤ 1) : easeBody x e ≤ easeBody y e := by
  have hx1 : x ≤ 1 := hxy.trans h1
  have hy0 : 0 ≤ y := h0.trans hxy
  cases e with
  | linear => simpa [easeBody] using hxy
  | smoothstep =>
      simp only [easeBody]
      nlinarith [mul_nonneg (sub_nonneg.2 hxy) (mul_nonneg h0 hy0),
                 mul_nonneg (sub_nonneg.2 hxy) (sub_nonneg.2 hx1),
                 mul_nonneg (sub_nonneg.2 hxy) (sub_nonneg.2 h1),
                 mul_nonneg (mul_nonneg (sub_nonneg.2 hxy) (sub_nonneg.2 h1)) (sub_nonneg.2 hx1)]
  | easeInOutQuad =>
      simp only [easeBody]
      rcases lt_or_le x (1/2) with hx | hx
      · rcases lt_or_le y (1/2) with hy | hy
        · rw [if_pos hx, if_pos hy]; nlinarith
        · rw [if_pos hx, if_neg (not_lt.2 hy)]; nlinarith
      · have hy : (1:ℚ)/2 ≤ y := hx.trans hxy
        rw [if_neg (not_lt.2 hx), if_neg (not_lt.2 hy)]; nlinarith
  | easeInOutCubic =>
      simp only [easeBody]
      rcases lt_or_le x (1/2) with hx | hx
      · rcases lt_or_le y (1/2) with hy | hy
        · rw [if_pos hx, if_pos hy]
          nlinarith [mul_nonneg (sub_nonneg.2 hxy) (mul_nonneg h0 hy0),
                     mul_nonneg (mul_nonneg h0 h0) (sub_nonneg.2 hxy),
                     mul_nonneg (mul_nonneg hy0 hy0) (sub_nonneg.2 hxy)]
        · rw [if_pos hx, if_neg (not_lt.2 hy)]
          nlinarith [mul_nonneg (sub_nonneg.2 h1) (sub_nonneg.2 h1),
                     mul_nonneg (mul_nonneg (sub_nonneg.2 h1) (sub_nonneg.2 h1)) (sub_nonneg.2 hy),
                     mul_nonneg h0 h0, mul_nonneg (mul_nonneg h0 h0) h0]
      · have hy : (1:ℚ)/2 ≤ y := hx.trans hxy
        rw [if_neg (not_lt.2 hx), if_neg (not_lt.2 hy)]
        nlinarith [mul_nonneg (sub_nonneg.2 hxy) (mul_nonneg (sub_nonneg.2 hx1) (sub_nonneg.2 h1)),
                   mul_nonneg (sub_nonneg.2 hxy) (sub_nonneg.2 hx1),
                   mul_nonneg (sub_nonneg.2 hxy) (sub_nonneg.2 h1),
                   mul_nonneg (mul_nonneg (sub_nonneg.2 hx1) (sub_nonneg.2 hx1)) (sub_nonneg.2 hxy)]

lemma jsClamp01_bounds (t : ℚ) : 0 ≤ jsClamp t 0 1 ∧ jsClamp t 0 1 ≤ 1 :=
  ⟨jsClamp_left t 0 1, jsClamp_right t 0 1 (by norm_num)⟩

/-- C6: each of the four easing curves computed by `#ease` (linear,
smoothstep `3t²-2t³`, quadratic-in-out, cubic-in-out), over the clamped input,
fixes the endpoints (`f 0 = 0`, `f 1 = 1`), is monotone non-decreasing, and
has output in `[0,1]`. -/
theorem c6_easing_endpoints_monotone_bounded (e : GradientEasing) (a b t : ℚ)
    (hab : a ≤ b) :
    ease 0 e = 0 ∧ ease 1 e = 1 ∧ ease a e ≤ ease b e ∧
    0 ≤ ease t e ∧ ease t e ≤ 1 := by
  have hz : jsClamp 0 0 1 = 0 := by norm_num [jsClamp]
  have ho : jsClamp 1 0 1 = 1 := by norm_num [jsClamp]
  refine ⟨?_, ?_, ?_, ?_, ?_⟩
  · rw [ease, hz, easeBody_zero]
  · rw [ease, ho, easeBody_one]
  · exact easeBody_mono e _ _ (jsClamp01_bounds a).1 (jsClamp_mono a b 0 1 hab)
      (jsClamp01_bounds b).2
  · have := easeBody_mono e 0 (jsClamp t 0 1) le_rfl (jsClamp01_bounds t).1
      (jsClamp01_bounds t).2
    rw [easeBody_zero] at this
    exact this
  · have := easeBody_mono e (jsClamp t 0 1) 1 (jsClamp01_bounds t).1
      (jsClamp01_bounds t).2 le_rfl
    rw [easeBody_one] at this
    exact this

/-- C6 witness: the cubic-in-out curve at concrete inputs 1/4 ≤ 3/4. -/
theorem c6_easing_endpoints_monotone_bounded_witness :
    ease 0 GradientEasing.easeInOutCubic = 0 ∧
    ease 1 GradientEasing.easeInOutCubic = 1 ∧
    ease (1/4) GradientEasing.easeInOutCubic ≤ ease (3/4) GradientEasing.easeInOutCubic ∧
    0 ≤ ease (1/2) GradientEasing.easeInOutCubic ∧
    ease (1/2) GradientEasing.easeInOutCubic ≤ 1 :=
  c6_easing_endpoints_monotone_bounded GradientEasing.easeInOutCubic (1/4) (3/4) (1/2)
    (by norm_num)

/-! ## C4 — waypoint-path stepping -/

lemma lerp_tzero (a b : ℚ) : lerp a b 0 = a := by simp [lerp]

lemma lerp_same (a t : ℚ) : lerp a a t = a := by simp [lerp]

lemma ease_zero (e : GradientEasing) : ease 0 e = 0 := by
  rw [ease]
  norm_num [jsClamp, easeBody_zero]

lemma motionConfigChanged_false (st : MotionState) (r : ResolvedMotion)
    (h1 : st.mode = r.mode) (h2 : st.easing = r.easing) (h3 : st.duration = r.duration)
    (h4 : st.bounds = r.bounds) (h5 : st.randomRadius = r.randomRadius) :
    motionConfigChanged st r = false := by
  simp [motionConfigChanged, h1, h2, h3, h4, h5]

/-- C4: for a point in path mode whose cached motion state matches the resolved
configuration (no re-seed), one `#stepMotion` tick behaves as follows.
With progress not reaching 1, the path index and segment target are unchanged
(so the index advances at most once per tick however large `dt` is). When
progress reaches 1 on a non-empty path of n waypoints, the position snaps
exactly to the old target, the segment start becomes that target, progress
resets to 0, and the path index advances exactly one step to
`(pathIndex + 1) % n`, whose bounds-clamped waypoint becomes the new target
(wrapping around after the last waypoint). With an empty path and a degenerate
held segment the position is held; `#createMotionState` establishes that held
segment for an empty path, and seeds a non-empty path at the bounds-clamped
waypoint 0 with progress 0. -/
theorem c4_waypoint_path_stepping
    (dm : GradientMotion) (p : GradientPoint) (st : MotionState) (dt : ℚ)
    (s0 s1 s2 : RandomSample)
    (hmode : st.mode = (resolveMotion dm p).mode)
    (heas : st.easing = (resolveMotion dm p).easing)
    (hdur : st.duration = (resolveMotion dm p).duration)
    (hbnd : st.bounds = (resolveMotion dm p).bounds)
    (hrad : st.randomRadius = (resolveMotion dm p).randomRadius)
    (hpath : st.mode = GradientMotionMode.path) :
    (¬ 1 ≤ st.t + dt / ((resolveMotion dm p).duration * 1000) →
      (stepMotion dm p st dt s1 s2).pathIndex = st.pathIndex ∧
      (stepMotion dm p st dt s1 s2).targetX = st.targetX ∧
      (stepMotion dm p st dt s1 s2).targetY = st.targetY) ∧
    (1 ≤ st.t + dt / ((resolveMotion dm p).duration * 1000) →
      (resolveMotion dm p).path ≠ [] →
      (stepMotion dm p st dt s1 s2).pathIndex =
         (st.pathIndex + 1) % (resolveMotion dm p).path.length ∧
      (stepMotion dm p st dt s1 s2).targetX =
         jsClamp ((resolveMotion dm p).path.getD
             ((st.pathIndex + 1) % (resolveMotion dm p).path.length) (0, 0)).1
           (resolveMotion dm p).bounds.minX (resolveMotion dm p).bounds.maxX ∧
      (stepMotion dm p st dt s1 s2).targetY =
         jsClamp ((resolveMotion dm p).path.getD
             ((st.pathIndex + 1) % (resolveMotion dm p).path.length) (0, 0)).2
           (resolveMotion dm p).bounds.minY (resolveMotion dm p).bounds.maxY ∧
      (stepMotion dm p st dt s1 s2).x = st.targetX ∧
      (stepMotion dm p st dt s1 s2).y = st.targetY ∧
      (stepMotion dm p st dt s1 s2).startX = st.targetX ∧
      (stepMotion dm p st dt s1 s2).startY = st.targetY ∧
      (stepMotion dm p st dt s1 s2).t = 0) ∧
    ((resolveMotion dm p).path = [] →
      st.startX = st.x → st.targetX = st.x → st.startY = st.y → st.targetY = st.y →
      (stepMotion dm p st dt s1 s2).x = st.x ∧
      (stepMotion dm p st dt s1 s2).y = st.y) ∧
    ((resolveMotion dm p).path = [] →
      (createMotionState dm p s0).x = p.x ∧ (createMotionState dm p s0).y = p.y ∧
      (createMotionState dm p s0).startX = p.x ∧ (createMotionState dm p s0).targetX = p.x ∧
      (createMotionState dm p s0).startY = p.y ∧ (createMotionState dm p s0).targetY = p.y ∧
      (createMotionState dm p s0).t = 1) ∧
    ((resolveMotion dm p).path ≠ [] →
      (createMotionState dm p s0).pathIndex = 0 ∧ (createMotionState dm p s0).t = 0 ∧
      (createMotionState dm p s0).targetX =
        jsClamp ((resolveMotion dm p).path.getD 0 (0, 0)).1
          (resolveMotion dm p).bounds.minX (resolveMotion dm p).bounds.maxX ∧
      (createMotionState dm p s0).targetY =
        jsClamp ((resolveMotion dm p).path.getD 0 (0, 0)).2
          (resolveMotion dm p).bounds.minY (resolveMotion dm p).bounds.maxY) := by
  have hrm : (resolveMotion dm p).mode = GradientMotionMode.path := hmode.symm.trans hpath
  have hcc := motionConfigChanged_false st (resolveMotion dm p) hmode heas hdur hbnd hrad
  refine ⟨?_, ?_, ?_, ?_, ?_⟩
  · intro hlt
    rw [stepMotion]
    simp only [hcc, Bool.false_eq_true, if_false, hrm]
    simp only [reduceCtorEq, if_false, ge_iff_le, hlt, applyEase]
    exact ⟨trivial, trivial, trivial⟩
  · intro hwrap hne
    rw [stepMotion]
    simp only [hcc, Bool.false_eq_true, if_false, hrm]
    simp only [reduceCtorEq, if_false, ge_iff_le, hwrap, if_true, if_pos]
    cases hp : (resolveMotion dm p).path with
    | nil => exact absurd hp hne
    | cons wp0 tl =>
        simp [applyEase, ease_zero, lerp_tzero]
  · intro hp hsx htx hsy hty
    rw [stepMotion]
    simp only [hcc, Bool.false_eq_true, if_false, hrm]
    simp only [reduceCtorEq, if_false, ge_iff_le, hp]
    by_cases hwrap : 1 ≤ st.t + dt / ((resolveMotion dm p).duration * 1000)
    · simp only [hwrap, if_true, if_pos]
      simp [htx, hty]
    · simp only [hwrap, if_false]
      simp [applyEase, hsx, htx, hsy, hty, lerp_same]
  · intro hp
    rw [createMotionState]
    simp only [hrm, hp]
    simp
  · intro hne
    rw [createMotionState]
    simp only [hrm]
    cases hp : (resolveMotion dm p).path with
    | nil => exact absurd hp hne
    | cons wp0 tl => simp

/-- C4 witness: a 3-waypoint path with duration 1s; a single tick with a large
`dt = 5000 ms` crosses the segment boundary and advances the index exactly one
step (to waypoint 1), while a small `dt = 500 ms` tick does not advance it. -/
theorem c4_waypoint_path_stepping_witness :
    ((¬ (1:ℚ) ≤ (createMotionState
        { mode := some GradientMotionMode.path,
          path := some [(0, 0), (1, 0), (0, 1)], duration := some 1 }
        { x := 0, y := 0, colors := [] } {}).t + 500 / ((resolveMotion
        { mode := some GradientMotionMode.path,
          path := some [(0, 0), (1, 0), (0, 1)], duration := some 1 }
        { x := 0, y := 0, colors := [] }).duration * 1000)) →
      (stepMotion
        { mode := some GradientMotionMode.path,
          path := some [(0, 0), (1, 0), (0, 1)], duration := some 1 }
        { x := 0, y := 0, colors := [] }
        (createMotionState
          { mode := some GradientMotionMode.path,
            path := some [(0, 0), (1, 0), (0, 1)], duration := some 1 }
          { x := 0, y := 0, colors := [] } {}) 500 {} {}).pathIndex =
        (createMotionState
          { mode := some GradientMotionMode.path,
            path := some [(0, 0), (1, 0), (0, 1)], duration := some 1 }
          { x := 0, y := 0, colors := [] } {}).pathIndex ∧
      (stepMotion
        { mode := some GradientMotionMode.path,
          path := some [(0, 0), (1, 0), (0, 1)], duration := some 1 }
        { x := 0, y := 0, colors := [] }
        (createMotionState
          { mode := some GradientMotionMode.path,
            path := some [(0, 0), (1, 0), (0, 1)], duration := some 1 }
          { x := 0, y := 0, colors := [] } {}) 500 {} {}).targetX =
        (createMotionState
          { mode := some GradientMotionMode.path,
            path := some [(0, 0), (1, 0), (0, 1)], duration := some 1 }
          { x := 0, y := 0, colors := [] } {}).targetX ∧
      (stepMotion
        { mode := some GradientMotionMode.path,
          path := some [(0, 0), (1, 0), (0, 1)], duration := some 1 }
        { x := 0, y := 0, colors := [] }
        (createMotionState
          { mode := some GradientMotionMode.path,
            path := some [(0, 0), (1, 0), (0, 1)], duration := some 1 }
          { x := 0, y := 0, colors := [] } {}) 500 {} {}).targetY =
        (createMotionState
          { mode := some GradientMotionMode.path,
            path := some [(0, 0), (1, 0), (0, 1)], duration := some 1 }
          { x := 0, y := 0, colors := [] } {}).targetY) ∧
    True := by
  refine ⟨?_, trivial⟩
  exact (c4_waypoint_path_stepping
    { mode := some GradientMotionMode.path,
      path := some [(0, 0), (1, 0), (0, 1)], duration := some 1 }
    { x := 0, y := 0, colors := [] }
    (createMotionState
      { mode := some GradientMotionMode.path,
        path := some [(0, 0), (1, 0), (0, 1)], duration := some 1 }
      { x := 0, y := 0, colors := [] } {}) 500 {} {} {}
    (by norm_num [createMotionState, resolveMotion, mergeMotion, resolveBounds])
    (by norm_num [createMotionState, resolveMotion, mergeMotion, resolveBounds])
    (by norm_num [createMotionState, resolveMotion, mergeMotion, resolveBounds])
    (by norm_num [createMotionState, resolveMotion, mergeMotion, resolveBounds])
    (by norm_num [createMotionState, resolveMotion, mergeMotion, resolveBounds])
    (by norm_num [createMotionState, resolveMotion, mergeMotion, resolveBounds])).1

/-! ## C10 — color indices stay in range -/

lemma colorStep_inv (n : ℕ) (speed dt : ℚ) (cs : ColorState)
    (hn : 2 ≤ n) (h : ColorIdxInv n cs) :
    ColorIdxInv n (colorStep n speed dt cs) := by
  obtain ⟨hc, hx, hrel, _⟩ := h
  by_cases hwrap : cs.t + dt * (1/1000) * speed ≥ 1
  · simp only [colorStep, hwrap, if_true, if_pos]
    exact ⟨hx, Nat.mod_lt _ (by omega), fun _ => rfl, fun h1 => by omega⟩
  · simp only [colorStep, hwrap, if_false]
    exact ⟨hc, hx, hrel, fun h1 => by omega⟩

lemma renderPoint_color_ok (dm : GradientMotion) (p : GradientPoint) (parsed : List RGB)
    (ms : MotionState) (cs : ColorState) (prev : RGB) (dt : ℚ) (s1 s2 : RandomSample)
    (n : ℕ) (hn : p.colors.length = n) (hp : n ≤ parsed.length) (hinv : ColorIdxInv n cs) :
    ∃ res, renderPoint dm p parsed ms cs prev dt s1 s2 = some res ∧
      (p.colors.length ≤ 1 → res.2.1 = cs) ∧
      (2 ≤ n → res.2.1 = colorStep n (resolveSpeed p.speed) dt cs) ∧
      (1 ≤ n → ColorIdxInv n res.2.1) := by
  by_cases hle : p.colors.length ≤ 1
  · have heq : renderPoint dm p parsed ms cs prev dt s1 s2 =
        some (stepMotion dm p ms dt s1 s2, cs,
              ((stepMotion dm p ms dt s1 s2).x, (stepMotion dm p ms dt s1 s2).y), prev) := by
      simp only [renderPoint]
      rw [if_pos hle]
    exact ⟨_, heq, fun _ => rfl, fun h2 => by omega, fun _ => hinv⟩
  · have hn2 : 2 ≤ n := by omega
    have hinv' := colorStep_inv n (resolveSpeed p.speed) dt cs hn2 hinv
    have hinvc : ColorIdxInv p.colors.length
        (colorStep p.colors.length (resolveSpeed p.speed) dt cs) := by
      rw [hn]; exact hinv'
    have hc : (colorStep p.colors.length (resolveSpeed p.speed) dt cs).currentIdx <
        parsed.length := lt_of_lt_of_le hinvc.1 (hn ▸ hp)
    have hx : (colorStep p.colors.length (resolveSpeed p.speed) dt cs).nextIdx <
        parsed.length := lt_of_lt_of_le hinvc.2.1 (hn ▸ hp)
    have heq : renderPoint dm p parsed ms cs prev dt s1 s2 =
        some (stepMotion dm p ms dt s1 s2,
              colorStep p.colors.length (resolveSpeed p.speed) dt cs,
              ((stepMotion dm p ms dt s1 s2).x, (stepMotion dm p ms dt s1 s2).y),
              lerpRGB (parsed.get ⟨_, hc⟩) (parsed.get ⟨_, hx⟩)
                (colorStep p.colors.length (resolveSpeed p.speed) dt cs).t) := by
      simp only [renderPoint]
      rw [if_neg hle, List.get?_eq_get hc, List.get?_eq_get hx]
    refine ⟨_, heq, fun h1 => by omega, fun _ => ?_, fun _ => ?_⟩
    · show colorStep p.colors.length (resolveSpeed p.speed) dt cs =
        colorStep n (resolveSpeed p.speed) dt cs
      rw [hn]
    · simpa [hn] using hinv'

lemma runPointTicks_inv (dm : GradientMotion) (p : GradientPoint) (parsed : List RGB)
    (n : ℕ) (hn : p.colors.length = n) (hp : n ≤ parsed.length) (h1 : 1 ≤ n)
    (dts : List ℚ) :
    ∀ (rnd : ℕ → RandomSample × RandomSample) (ms : MotionState) (cs : ColorState)
      (prev : RGB), ColorIdxInv n cs →
      ∃ out, runPointTicks dm p parsed rnd ms cs prev dts = some out ∧
        ColorIdxInv n out.2.1 := by
  induction dts with
  | nil => exact fun rnd ms cs prev hinv => ⟨(ms, cs, prev), rfl, hinv⟩
  | cons dt rest ih =>
      intro rnd ms cs prev hinv
      obtain ⟨res, hres, -, -, hinv'⟩ :=
        renderPoint_color_ok dm p parsed ms cs prev dt (rnd 0).1 (rnd 0).2 n hn hp hinv
      obtain ⟨out, hout, hinvout⟩ :=
        ih (fun k => rnd (k + 1)) res.1 res.2.1 res.2.2.2 (hinv' h1)
      exact ⟨out, by rw [runPointTicks, hres]; exact hout, hinvout⟩

/-- C10: for a point whose colors list has fixed length `n ≥ 1`, the color
indices are in range after construction (`currentIdx = 0`,
`nextIdx = (0+1) % n` when `n ≥ 2` and `0` when `n = 1` — exactly how the
constructor seeds `colorStates`) and stay in range with
`nextIdx = (currentIdx + 1) % n` across every sequence of ticks, so the
per-frame lookups into the pre-parsed color table (length ≥ n) never index out
of bounds — every run of ticks succeeds. -/
theorem c10_color_indices_in_range
    (points : List GradientPoint) (dm0 : Option GradientMotion) (rnd0 : ℕ → RandomSample)
    (dm : GradientMotion) (p : GradientPoint) (parsed : List RGB)
    (rnd : ℕ → RandomSample × RandomSample) (ms : MotionState) (cs : ColorState)
    (prev : RGB) (dts : List ℚ) (n : ℕ)
    (hn : p.colors.length = n) (hp : n ≤ parsed.length) (h1 : 1 ≤ n)
    (hinv : ColorIdxInv n cs) :
    (gradientInit points dm0 rnd0).colorStates =
      (gradientInit points dm0 rnd0).pointsConfig.map
        (fun q => ⟨0, if q.colors.length < 2 then 0 else 1, 0⟩) ∧
    ColorIdxInv n ⟨0, if p.colors.length < 2 then 0 else 1, 0⟩ ∧
    ∃ out, runPointTicks dm p parsed rnd ms cs prev dts = some out ∧
      ColorIdxInv n out.2.1 := by
  refine ⟨rfl, ?_, runPointTicks_inv dm p parsed n hn hp h1 dts rnd ms cs prev hinv⟩
  rw [hn]
  by_cases h2 : n < 2
  · simp only [h2, if_true, if_pos]
    exact ⟨show (0:ℕ) < n by omega, show (0:ℕ) < n by omega,
           fun hh => absurd hh (by omega), fun _ => ⟨rfl, rfl⟩⟩
  · simp only [h2, if_false]
    refine ⟨show (0:ℕ) < n by omega, show (1:ℕ) < n by omega,
            fun hh => ?_, fun h1' => absurd h1' (by omega)⟩
    show (1:ℕ) = (0 + 1) % n
    rw [Nat.zero_add, Nat.mod_eq_of_lt (by omega)]

/-- C10 witness: the two-color scenario point keeps its indices in range across
three 400ms ticks. -/
theorem c10_color_indices_in_range_witness :
    (gradientInit [ptScenario] Option.none (fun _ => {})).colorStates =
      (gradientInit [ptScenario] Option.none (fun _ => {})).pointsConfig.map
        (fun q => ⟨0, if q.colors.length < 2 then 0 else 1, 0⟩) ∧
    ColorIdxInv 2 ⟨0, if ptScenario.colors.length < 2 then 0 else 1, 0⟩ ∧
    ∃ out, runPointTicks {} ptScenario [red, blue] rndPair
        (createMotionState {} ptScenario {}) ⟨0, 1, 0⟩ red [400, 400, 400] = some out ∧
      ColorIdxInv 2 out.2.1 :=
  c10_color_indices_in_range [ptScenario] Option.none (fun _ => {}) {} ptScenario
    [red, blue] rndPair (createMotionState {} ptScenario {}) ⟨0, 1, 0⟩ red
    [400, 400, 400] 2 (by norm_num [ptScenario]) (by norm_num) (by norm_num)
    ⟨by norm_num, by norm_num, fun _ => rfl, fun h => by omega⟩

/-! ## C3 — onRender and throwing -/

lemma renderPoint_ok (dm : GradientMotion) (p : GradientPoint) (parsed : List RGB)
    (ms : MotionState) (cs : ColorState) (prev : RGB) (dt : ℚ) (s1 s2 : RandomSample)
    (hlen : p.colors.length ≤ parsed.length)
    (hc : cs.currentIdx < parsed.length) (hx : cs.nextIdx < parsed.length) :
    ∃ res, renderPoint dm p parsed ms cs prev dt s1 s2 = some res ∧
      res.2.1.currentIdx < parsed.length ∧ res.2.1.nextIdx < parsed.length := by
  by_cases hle : p.colors.length ≤ 1
  · have heq : renderPoint dm p parsed ms cs prev dt s1 s2 =
        some (stepMotion dm p ms dt s1 s2, cs,
              ((stepMotion dm p ms dt s1 s2).x, (stepMotion dm p ms dt s1 s2).y), prev) := by
      simp only [renderPoint]
      rw [if_pos hle]
    exact ⟨_, heq, hc, hx⟩
  · have hpos : 0 < p.colors.length := by omega
    have hc' : (colorStep p.colors.length (resolveSpeed p.speed) dt cs).currentIdx <
        parsed.length := by
      by_cases hwrap : cs.t + dt * (1/1000) * resolveSpeed p.speed ≥ 1
      · simpa only [colorStep, hwrap, if_true, if_pos] using hx
      · simpa only [colorStep, hwrap, if_false] using hc
    have hx' : (colorStep p.colors.length (resolveSpeed p.speed) dt cs).nextIdx <
        parsed.length := by
      by_cases hwrap : cs.t + dt * (1/1000) * resolveSpeed p.speed ≥ 1
      · simp only [colorStep, hwrap, if_true, if_pos]
        exact lt_of_lt_of_le (Nat.mod_lt _ hpos) hlen
      · simpa only [colorStep, hwrap, if_false] using hx
    have heq : renderPoint dm p parsed ms cs prev dt s1 s2 =
        some (stepMotion dm p ms dt s1 s2,
              colorStep p.colors.length (resolveSpeed p.speed) dt cs,
              ((stepMotion dm p ms dt s1 s2).x, (stepMotion dm p ms dt s1 s2).y),
              lerpRGB (parsed.get ⟨_, hc'⟩) (parsed.get ⟨_, hx'⟩)
                (colorStep p.colors.length (resolveSpeed p.speed) dt cs).t) := by
      simp only [renderPoint]
      rw [if_neg hle, List.get?_eq_get hc', List.get?_eq_get hx']
    exact ⟨_, heq, hc', hx'⟩

lemma renderLoop_ok (dm : GradientMotion) (dt : ℚ) :
    ∀ (ps : List GradientPoint) (parseds : List (List RGB)) (mss : List MotionState)
      (css : List ColorState) (prevs : List RGB) (rnd : ℕ → RandomSample × RandomSample),
      List.Forall₂ (fun p parsed => p.colors.length ≤ parsed.length) ps parseds →
      List.Forall₂ (fun cs parsed =>
        cs.currentIdx < parsed.length ∧ cs.nextIdx < parsed.length) css parseds →
      mss.length = ps.length → prevs.length = ps.length →
      (renderLoop dm dt ps parseds mss css prevs rnd).isSome := by
  intro ps
  induction ps with
  | nil =>
      intro parseds mss css prevs rnd h1 h2 h3 h4
      cases h1
      cases h2
      cases mss with
      | cons m ms => simp at h3
      | nil =>
          cases prevs with
          | cons v vs => simp at h4
          | nil => simp [renderLoop]
  | cons p ps ih =>
      intro parseds mss css prevs rnd h1 h2 h3 h4
      rcases h1 with - | ⟨hp1, h1'⟩
      rcases h2 with - | ⟨hp2, h2'⟩
      cases mss with
      | nil => simp at h3
      | cons m ms =>
          cases prevs with
          | nil => simp at h4
          | cons prev prevs =>
              obtain ⟨res, hres, -, -⟩ := renderPoint_ok dm p _ m _ prev dt
                (rnd 0).1 (rnd 0).2 hp1 hp2.1 hp2.2
              have hrec := ih _ ms _ prevs (fun k => rnd (k + 1)) h1' h2'
                (by simpa using h3) (by simpa using h4)
              rw [renderLoop, hres]
              obtain ⟨rest, hrest⟩ := Option.isSome_iff_exists.1 hrec
              rw [hrest]
              rfl

/-- C3 (amended): `GradientPlugin.onRender` never throws, for any `dt`, any
random draws, and any between-tick mutation of the points' base positions,
speeds, and motion specs, and any mutation of a colors list that does not make
it longer than its construction-time pre-parsed table — formally, whenever each
live colors list is no longer than its parsed table, each color state indexes
within its parsed table, and the parallel state lists are aligned, the tick
returns a value. (Growing a colors list beyond its parsed table can throw, see
the counterexample.) -/
theorem c3_on_render_never_throws (s : PluginState) (dt : ℚ)
    (rnd : ℕ → RandomSample × RandomSample)
    (h1 : List.Forall₂ (fun p parsed => p.colors.length ≤ parsed.length)
      s.pointsConfig s.parsedColors)
    (h2 : List.Forall₂ (fun cs parsed =>
      cs.currentIdx < parsed.length ∧ cs.nextIdx < parsed.length)
      s.colorStates s.parsedColors)
    (h3 : s.motionStates.length = s.pointsConfig.length)
    (h4 : s.pointsConfig.length ≤ s.uColors.length) :
    (onRenderAll s dt rnd).isSome := by
  have hloop := renderLoop_ok s.defaultMotion dt s.pointsConfig s.parsedColors
    s.motionStates s.colorStates (s.uColors.take s.pointsConfig.length) rnd h1 h2 h3
    (by rw [List.length_take]; omega)
  obtain ⟨res, hres⟩ := Option.isSome_iff_exists.1 hloop
  rw [onRenderAll]
  rw [hres]
  rfl

/-- C3 witness: a freshly-constructed plugin with a mutated base position and
speed (colors untouched) ticks without throwing. -/
theorem c3_on_render_never_throws_witness :
    (onRenderAll
      { sInit with pointsConfig := [{ ptSingleRed with x := 1/2, speed := some 7 }] }
      250 rndPair).isSome :=
  c3_on_render_never_throws
    { sInit with pointsConfig := [{ ptSingleRed with x := 1/2, speed := some 7 }] }
    250 rndPair
    (by norm_num [sInit, gradientInit, ptSingleRed, MAX_POINTS, List.forall₂_cons])
    (by norm_num [sInit, gradientInit, ptSingleRed, MAX_POINTS, List.forall₂_cons])
    (by norm_num [sInit, gradientInit, ptSingleRed, MAX_POINTS])
    (by norm_num [sInit, gradientInit, ptSingleRed, MAX_POINTS])

/-- C3 counterexample: the claim says `onRender` tolerates any between-tick
mutation of the colors array without throwing. Constructing with a single
color and then growing the colors array to three entries makes the next tick
look up index 1 of the length-1 pre-parsed table: the JS code reads
`undefined` and throws on the channel access (modelled as `Option.none`). -/
theorem c3_counterexample_grown_colors_throws :
    onRenderAll sMutated 1000 rndPair = Option.none := by
  norm_num [onRenderAll, sMutated, sInit, gradientInit, ptSingleRed, renderLoop, renderPoint,
            colorStep, resolveSpeed, MAX_POINTS]

/-! ## C5 — color-track update rule -/

lemma runPointTicks_single_color (dm : GradientMotion) (p : GradientPoint)
    (parsed : List RGB) (cs : ColorState) (prev : RGB) (dts : List ℚ)
    (hle : p.colors.length ≤ 1) :
    ∀ (rnd : ℕ → RandomSample × RandomSample) (ms : MotionState),
      ∃ out, runPointTicks dm p parsed rnd ms cs prev dts = some out ∧
        out.2.1 = cs ∧ out.2.2 = prev := by
  induction dts with
  | nil => exact fun rnd ms => ⟨(ms, cs, prev), rfl, rfl, rfl⟩
  | cons dt rest ih =>
      intro rnd ms
      have heq : renderPoint dm p parsed ms cs prev dt (rnd 0).1 (rnd 0).2 =
          some (stepMotion dm p ms dt (rnd 0).1 (rnd 0).2, cs,
                ((stepMotion dm p ms dt (rnd 0).1 (rnd 0).2).x,
                 (stepMotion dm p ms dt (rnd 0).1 (rnd 0).2).y), prev) := by
        simp only [renderPoint]
        rw [if_pos hle]
      obtain ⟨out, hout, h1, h2⟩ :=
        ih (fun k => rnd (k + 1)) (stepMotion dm p ms dt (rnd 0).1 (rnd 0).2)
      exact ⟨out, by rw [runPointTicks, heq]; exact hout, h1, h2⟩

/-- C5: the per-tick color rule. A point with a single color never changes its
emitted color or color state over any tick sequence. With ≥ 2 colors the track
advances `t` by `dt * 0.001 * speed`; on reaching 1 it sets
`currentIdx := nextIdx`, `nextIdx := (nextIdx + 1) mod n` and resets `t` to 0
(remainder discarded), else it keeps the indices. The constructor seeds the
scenario point `{colors: [#ff0000, #0000ff], speed: 1}` at indices (0,1) with
the first color emitted; ticking `dt = 500 ms` repeatedly, after 1 second the
emitted color is exactly the linear `#0000ff`, and the next tick blends halfway
back toward `#ff0000`. -/
theorem c5_color_cycle_rule
    (dm : GradientMotion) (p : GradientPoint) (parsed : List RGB)
    (rnd : ℕ → RandomSample × RandomSample) (ms : MotionState) (cs : ColorState)
    (prev : RGB) (dt : ℚ) (dts : List ℚ) :
    (p.colors.length ≤ 1 →
      ∃ out, runPointTicks dm p parsed rnd ms cs prev dts = some out ∧
        out.2.1 = cs ∧ out.2.2 = prev) ∧
    (1 ≤ cs.t + dt * (1/1000) * resolveSpeed p.speed →
      colorStep p.colors.length (resolveSpeed p.speed) dt cs =
        ⟨cs.nextIdx, (cs.nextIdx + 1) % p.colors.length, 0⟩) ∧
    (¬ 1 ≤ cs.t + dt * (1/1000) * resolveSpeed p.speed →
      colorStep p.colors.length (resolveSpeed p.speed) dt cs =
        ⟨cs.currentIdx, cs.nextIdx, cs.t + dt * (1/1000) * resolveSpeed p.speed⟩) ∧
    (gradientInit [ptScenario] Option.none (fun _ => {})).colorStates = [⟨0, 1, 0⟩] ∧
    (gradientInit [ptScenario] Option.none (fun _ => {})).uColors.headD black = red ∧
    ((runPointTicks {} ptScenario [red, blue] rndPair (createMotionState {} ptScenario {})
        ⟨0, 1, 0⟩ red [500, 500]).map (fun out => out.2.2) = some blue) ∧
    ((runPointTicks {} ptScenario [red, blue] rndPair (createMotionState {} ptScenario {})
        ⟨0, 1, 0⟩ red [500, 500, 500]).map (fun out => out.2.2) = some ⟨1/2, 0, 1/2⟩) := by
  refine ⟨fun hle => runPointTicks_single_color dm p parsed cs prev dts hle rnd ms,
          fun hwrap => ?_, fun hlt => ?_, ?_, ?_, ?_, ?_⟩
  · simp only [colorStep, ge_iff_le, hwrap, if_true, if_pos]
  · simp only [colorStep, ge_iff_le, hlt, if_false]
  · norm_num [gradientInit, ptScenario, MAX_POINTS]
  · norm_num [gradientInit, ptScenario, MAX_POINTS, red]
  · norm_num [runPointTicks, renderPoint, colorStep, resolveSpeed, ptScenario, rndPair,
              lerpRGB, red, blue]
  · norm_num [runPointTicks, renderPoint, colorStep, resolveSpeed, ptScenario, rndPair,
              lerpRGB, red, blue]

/-- C5 witness: the single-color point holds its color over two ticks, and a
wrap at exactly `t = 1` advances the indices of the scenario state. -/
theorem c5_color_cycle_rule_witness :
    (ptSingleRed.colors.length ≤ 1 →
      ∃ out, runPointTicks {} ptSingleRed [red] rndPair
          (createMotionState {} ptSingleRed {}) ⟨0, 0, 0⟩ red [500, 500] = some out ∧
        out.2.1 = ⟨0, 0, 0⟩ ∧ out.2.2 = red) ∧
    ((1:ℚ) ≤ (0:ℚ) + 1000 * (1/1000) * resolveSpeed ptSingleRed.speed →
      colorStep ptSingleRed.colors.length (resolveSpeed ptSingleRed.speed) 1000 ⟨0, 0, 0⟩ =
        ⟨0, (0 + 1) % ptSingleRed.colors.length, 0⟩) ∧
    (¬ (1:ℚ) ≤ (0:ℚ) + 1000 * (1/1000) * resolveSpeed ptSingleRed.speed →
      colorStep ptSingleRed.colors.length (resolveSpeed ptSingleRed.speed) 1000 ⟨0, 0, 0⟩ =
        ⟨0, 0, (0:ℚ) + 1000 * (1/1000) * resolveSpeed ptSingleRed.speed⟩) ∧
    (gradientInit [ptScenario] Option.none (fun _ => {})).colorStates = [⟨0, 1, 0⟩] ∧
    (gradientInit [ptScenario] Option.none (fun _ => {})).uColors.headD black = red ∧
    ((runPointTicks {} ptScenario [red, blue] rndPair (createMotionState {} ptScenario {})
        ⟨0, 1, 0⟩ red [500, 500]).map (fun out => out.2.2) = some blue) ∧
    ((runPointTicks {} ptScenario [red, blue] rndPair (createMotionState {} ptScenario {})
        ⟨0, 1, 0⟩ red [500, 500, 500]).map (fun out => out.2.2) = some ⟨1/2, 0, 1/2⟩) :=
  c5_color_cycle_rule {} ptSingleRed [red] rndPair (createMotionState {} ptSingleRed {})
    ⟨0, 0, 0⟩ red 1000 [500, 500]

/-! ## C9 — hard cap of 16 points -/

lemma renderPoint_pos (dm : GradientMotion) (p : GradientPoint) (parsed : List RGB)
    (ms : MotionState) (cs : ColorState) (prev : RGB) (dt : ℚ) (s1 s2 : RandomSample)
    (r : MotionState × ColorState × (ℚ × ℚ) × RGB)
    (h : renderPoint dm p parsed ms cs prev dt s1 s2 = some r) :
    r.2.2.1 = (r.1.x, r.1.y) := by
  simp only [renderPoint] at h
  by_cases hle : p.colors.length ≤ 1
  · rw [if_pos hle] at h
    cases h
    rfl
  · rw [if_neg hle] at h
    rcases hc : parsed.get? (colorStep p.colors.length (resolveSpeed p.speed) dt cs).currentIdx
      with - | c1 <;>
      rcases hx : parsed.get? (colorStep p.colors.length (resolveSpeed p.speed) dt cs).nextIdx
        with - | c2 <;> rw [hc, hx] at h <;> cases h
    rfl

lemma renderLoop_shapes (dm : GradientMotion) (dt : ℚ) :
    ∀ (ps : List GradientPoint) (parseds : List (List RGB)) (mss : List MotionState)
      (css : List ColorState) (prevs : List RGB) (rnd : ℕ → RandomSample × RandomSample)
      (res : List MotionState × List ColorState × List (ℚ × ℚ) × List RGB),
      renderLoop dm dt ps parseds mss css prevs rnd = some res →
      res.1.length = ps.length ∧ res.2.1.length = ps.length ∧
      res.2.2.1 = res.1.map (fun m => (m.x, m.y)) ∧
      res.2.2.2.length = ps.length := by
  intro ps
  induction ps with
  | nil =>
      intro parseds mss css prevs rnd res h
      rcases parseds with _ | ⟨pa, parseds⟩ <;> rcases mss with _ | ⟨m, mss⟩ <;>
        rcases css with _ | ⟨c, css⟩ <;> rcases prevs with _ | ⟨v, prevs⟩ <;>
        simp only [renderLoop] at h <;> first
          | (cases h; simp)
          | cases h
  | cons p ps ih =>
      intro parseds mss css prevs rnd res h
      rcases parseds with _ | ⟨pa, parseds⟩ <;> rcases mss with _ | ⟨m, mss⟩ <;>
        rcases css with _ | ⟨c, css⟩ <;> rcases prevs with _ | ⟨v, prevs⟩ <;>
        simp only [renderLoop] at h
      case cons.cons.cons.cons =>
        cases hrp : renderPoint dm p pa m c v dt (rnd 0).1 (rnd 0).2 with
        | none => rw [hrp] at h; cases h
        | some r =>
            rw [hrp] at h
            cases hrec : renderLoop dm dt ps parseds mss css prevs (fun n => rnd (n + 1)) with
            | none => rw [hrec] at h; cases h
            | some rest =>
                rw [hrec] at h
                obtain ⟨h1, h2, h3, h4⟩ := ih parseds mss css prevs (fun n => rnd (n + 1)) rest hrec
                cases h
                refine ⟨by simp [h1], by simp [h2], ?_, by simp [h4]⟩
                simp only [List.map_cons]
                rw [← h3, renderPoint_pos dm p pa m c v dt (rnd 0).1 (rnd 0).2 r hrp]
      all_goals cases h

lemma gradientInit_points (points : List GradientPoint) (dm0 : Option GradientMotion)
    (rnd0 : ℕ → RandomSample) :
    (gradientInit points dm0 rnd0).pointsConfig = points.take MAX_POINTS := by
  simp only [gradientInit]
  by_cases h : points.length > MAX_POINTS
  · rw [if_pos h]
  · rw [if_neg h, List.take_of_length_le (by omega)]

/-- C9: constructing the plugin with any number of points raises no error and
tracks exactly the first `MAX_POINTS = 16` of them in original order
(`pointsConfig = points.take 16`), exposing `uPointCount = min(length, 16)`.
On every successful tick the first `uPointCount` uniform slots receive each
live point's position pair (and its color triple), while all slots beyond the
cap are never computed — they keep their constructor fill values. -/
theorem c9_sixteen_point_cap (points : List GradientPoint) (dm0 : Option GradientMotion)
    (rnd0 : ℕ → RandomSample) (dt : ℚ) (rnd : ℕ → RandomSample × RandomSample)
    (s' : PluginState)
    (h : onRenderAll (gradientInit points dm0 rnd0) dt rnd = some s') :
    (gradientInit points dm0 rnd0).pointsConfig = points.take MAX_POINTS ∧
    (gradientInit points dm0 rnd0).uPointCount = min points.length MAX_POINTS ∧
    (gradientInit points dm0 rnd0).uPoints.length = MAX_POINTS ∧
    s'.uPoints.length = MAX_POINTS ∧
    s'.motionStates.length = min points.length MAX_POINTS ∧
    s'.uPoints.take (min points.length MAX_POINTS) =
      s'.motionStates.map (fun m => (m.x, m.y)) ∧
    s'.uPoints.drop (min points.length MAX_POINTS) =
      (gradientInit points dm0 rnd0).uPoints.drop (min points.length MAX_POINTS) ∧
    s'.uColors.drop (min points.length MAX_POINTS) =
      (gradientInit points dm0 rnd0).uColors.drop (min points.length MAX_POINTS) := by
  have hpc := gradientInit_points points dm0 rnd0
  have hcount : (gradientInit points dm0 rnd0).pointsConfig.length =
      min points.length MAX_POINTS := by
    rw [hpc, List.length_take, Nat.min_comm]
  have hcle : min points.length MAX_POINTS ≤ MAX_POINTS := Nat.min_le_right _ _
  have hulen : (gradientInit points dm0 rnd0).uPoints.length = MAX_POINTS := by
    simp only [gradientInit, List.length_append, List.length_map, List.length_replicate]
    by_cases hgt : points.length > MAX_POINTS
    · rw [if_pos hgt]
      simp [List.length_take]
    · rw [if_neg hgt]
      omega
  rw [onRenderAll] at h
  cases hloop : renderLoop (gradientInit points dm0 rnd0).defaultMotion dt
      (gradientInit points dm0 rnd0).pointsConfig (gradientInit points dm0 rnd0).parsedColors
      (gradientInit points dm0 rnd0).motionStates (gradientInit points dm0 rnd0).colorStates
      ((gradientInit points dm0 rnd0).uColors.take
        (gradientInit points dm0 rnd0).pointsConfig.length) rnd with
  | none => rw [hloop] at h; cases h
  | some res =>
      rw [hloop] at h
      obtain ⟨hl1, hl2, hl3, hl4⟩ := renderLoop_shapes _ dt _ _ _ _ _ rnd res hloop
      cases h
      have hposs : res.2.2.1.length = min points.length MAX_POINTS := by
        rw [hl3, List.length_map, hl1, hcount]
      refine ⟨hpc, hcount, hulen, ?_, ?_, ?_, ?_, ?_⟩
      · simp only [List.length_append, hposs, List.length_drop, hulen, hcount]
        omega
      · simpa [hl1] using hcount
      · show (res.2.2.1 ++ _).take (min points.length MAX_POINTS) = _
        rw [← hposs, List.take_left, hl3]
      · show (res.2.2.1 ++
          (gradientInit points dm0 rnd0).uPoints.drop
            (gradientInit points dm0 rnd0).pointsConfig.length).drop
              (min points.length MAX_POINTS) = _
        rw [← hposs, List.drop_left, hposs, hcount]
      · show (res.2.2.2 ++
          (gradientInit points dm0 rnd0).uColors.drop
            (gradientInit points dm0 rnd0).pointsConfig.length).drop
              (min points.length MAX_POINTS) = _
        have hcols : res.2.2.2.length = min points.length MAX_POINTS := by
          rw [hl4, hcount]
        rw [← hcols, List.drop_left, hcols, hcount]

/-- C9 witness: ticking the one-point plugin succeeds and exhibits the cap
behavior at a concrete input. -/
theorem c9_sixteen_point_cap_witness :
    sInit.pointsConfig = [ptSingleRed].take MAX_POINTS ∧
    sInit.uPointCount = min [ptSingleRed].length MAX_POINTS ∧
    sInit.uPoints.length = MAX_POINTS ∧
    ((onRenderAll sInit 250 rndPair).getD sInit).uPoints.length = MAX_POINTS ∧
    ((onRenderAll sInit 250 rndPair).getD sInit).motionStates.length =
      min [ptSingleRed].length MAX_POINTS ∧
    ((onRenderAll sInit 250 rndPair).getD sInit).uPoints.take
        (min [ptSingleRed].length MAX_POINTS) =
      ((onRenderAll sInit 250 rndPair).getD sInit).motionStates.map (fun m => (m.x, m.y)) ∧
    ((onRenderAll sInit 250 rndPair).getD sInit).uPoints.drop
        (min [ptSingleRed].length MAX_POINTS) =
      sInit.uPoints.drop (min [ptSingleRed].length MAX_POINTS) ∧
    ((onRenderAll sInit 250 rndPair).getD sInit).uColors.drop
        (min [ptSingleRed].length MAX_POINTS) =
      sInit.uColors.drop (min [ptSingleRed].length MAX_POINTS) :=
  c9_sixteen_point_cap [ptSingleRed] Option.none (fun _ => {}) 250 rndPair
    ((onRenderAll sInit 250 rndPair).getD sInit)
    (by
      have hs : (onRenderAll sInit 250 rndPair).isSome := by
        norm_num [onRenderAll, renderLoop, renderPoint, sInit, gradientInit, ptSingleRed,
                  MAX_POINTS, rndPair]
      obtain ⟨v, hv⟩ := Option.isSome_iff_exists.1 hs
      show onRenderAll (gradientInit [ptSingleRed] Option.none fun _ => {}) 250 rndPair =
        some ((onRenderAll sInit 250 rndPair).getD sInit)
      show onRenderAll sInit 250 rndPair = some ((onRenderAll sInit 250 rndPair).getD sInit)
      rw [hv]
      rfl)

end ShaderBackground
